import Mathlib

/-!
Verification of the LibrePilot sensor-acquisition module
(`src/flight/modules/Sensors/sensors.c`) against its natural-language
specification.  The C module is shallowly embedded below: machine floats are
modelled as exact rationals, fixed-width integers as unbounded integers (the
`uint8_t` countdown counters, whose wrap-around is observable, keep their
modulo-256 arithmetic explicitly), and the stateful task loop becomes explicit
state passing over an event trace.
-/

set_option maxHeartbeats 1000000

namespace LibrePilotSensors

/-- Alarm severities of the system-alarm interface (`SYSTEMALARMS_ALARM_WARNING`,
`SYSTEMALARMS_ALARM_ERROR`, `SYSTEMALARMS_ALARM_CRITICAL`). -/
inductive Severity
  | warning
  | errorLevel
  | critical
  deriving DecidableEq

/-- Sensor type tags (`PIOS_SENSORS_TYPE_*`).  Modelled from the spec: the header
`pios_sensors.h` is not among the sources; the spec's data model lists the type
tags {accel, gyro, combined gyro+accel, mag, aux-mag, baro}. -/
inductive SensorType
  | accel
  | gyro
  | gyroAccel
  | mag
  | auxmag
  | baro
  deriving DecidableEq

/-- Test `sensor->type & PIOS_SENSORS_TYPE_3AXIS_ACCEL`: the combined gyro+accel tag
carries the accel bit, so it is the "primary" marker used by `SensorsTask`. -/
def SensorType.hasAccelFlag : SensorType → Bool
  | SensorType.accel => true
  | SensorType.gyroAccel => true
  | _ => false

/-- Test `sensor->type & PIOS_SENSORS_TYPE_3AXIS_GYRO`. -/
def SensorType.hasGyroFlag : SensorType → Bool
  | SensorType.gyro => true
  | SensorType.gyroAccel => true
  | _ => false

/-- Test `sensor->type & PIOS_SENSORS_TYPE_3D`: every tag except the 1-axis barometer. -/
def SensorType.is3D : SensorType → Bool
  | SensorType.baro => false
  | _ => true

/-- A 3-axis integer vector (`Vector3i32` / `Vector3i16`).  Fixed-width integers
are modelled as unbounded integers: the per-cycle sums of a handful of 16-bit
samples stay far from the 32-bit range, so wrap-around never becomes observable
here. -/
structure V3 where
  x : ℤ
  y : ℤ
  z : ℤ
  deriving DecidableEq

/-- One raw sample (`PIOS_SENSORS_3Axis_SensorsWithTemp`): up to
`MAX_SENSORS_PER_INSTANCE = 2` 3-axis vectors (`s0`, `s1`), the sample's own
sensor count `scount`, and a raw temperature code. -/
structure RawSample where
  scount : ℕ
  s0 : V3
  s1 : V3
  temperature : ℤ
  deriving DecidableEq

/-- The `sensor_fetch_context`: the per-cycle accumulation state. -/
structure FetchContext where
  accum0 : V3
  accum1 : V3
  temperature : ℤ
  count : ℕ
  deriving DecidableEq

/-- Function `clearContext`: zero every field of the fetch context. -/
def clearContext : FetchContext :=
  ⟨⟨0, 0, 0⟩, ⟨0, 0, 0⟩, 0, 0⟩

/-- Function `accumulateSamples`: fold one raw sample into the running sums
(the C loop runs for `i < MAX_SENSORS_PER_INSTANCE && i < sample->count`),
add the raw temperature, and increment the count. -/
def accumulateSamples (ctx : FetchContext) (sample : RawSample) : FetchContext :=
  { accum0 :=
      if 0 < sample.scount then
        ⟨ctx.accum0.x + sample.s0.x, ctx.accum0.y + sample.s0.y, ctx.accum0.z + sample.s0.z⟩
      else ctx.accum0
    accum1 :=
      if 1 < sample.scount then
        ⟨ctx.accum1.x + sample.s1.x, ctx.accum1.y + sample.s1.y, ctx.accum1.z + sample.s1.z⟩
      else ctx.accum1
    temperature := ctx.temperature + sample.temperature
    count := ctx.count + 1 }

/-- A 3-axis float vector; floats are modelled as exact rationals. -/
structure V3Q where
  x : ℚ
  y : ℚ
  z : ℚ
  deriving DecidableEq

/-- The fields of `AccelGyroSettingsData` (`agcal`) used by the pipeline. -/
structure AccelGyroCal where
  accel_bias : V3Q
  accel_scale : V3Q
  accel_temp_coeff : V3Q
  gyro_bias : V3Q
  gyro_scale : V3Q
  gyro_temp_coeff : V3Q
  gyro_temp_coeff2 : V3Q
  extent_min : ℚ
  extent_max : ℚ
  deriving DecidableEq

/-- The `RevoSettingsBaroTempCorrectionPolynomialData` record: the cubic coefficients. -/
structure BaroCorrection where
  a : ℚ
  b : ℚ
  c : ℚ
  d : ℚ
  deriving DecidableEq

/-- Modelled from the spec: `boundf` lives in the math library (`mathmisc`),
which is not among the sources; per the spec it clamps symmetrically — values
above `mx` clip to `mx`, values below `mn` clip to `mn`, values in range pass
through.  The argument order follows the call sites `boundf(value, max, min)`. -/
def boundf (val mx mn : ℚ) : ℚ :=
  if val < mn then mn else if val > mx then mx else val

/-- The low-pass update shared by the three temperature trackers: a lazily
seeded filtered temperature (the `NAN` initial value is modelled as `none`)
followed by `alpha * (raw - filtered) + filtered`. -/
def filteredNext (alpha t : ℚ) (filtered : Option ℚ) : ℚ :=
  let t0 := filtered.getD t
  alpha * (t - t0) + t0

/-- Constant `TEMP_CALIB_INTERVAL`: accel/gyro bias recompute interval in samples. -/
def TEMP_CALIB_INTERVAL : ℕ := 30

/-- Constant `BARO_TEMP_CALIB_INTERVAL`: baro bias recompute interval in samples. -/
def BARO_TEMP_CALIB_INTERVAL : ℕ := 10

/-- Per-channel temperature tracking state: the filtered temperature, the
current bias and the `uint8_t` countdown, kept in `[0, 255]` by the explicit
wrap-around arithmetic of the step function. -/
structure TempBiasState (β : Type) where
  temperature : Option ℚ
  bias : β
  count : ℕ
  deriving DecidableEq

/-- The common body of `updateAccelTempBias` / `updateGyroTempBias` /
`updateBaroTempBias`: low-pass the temperature; when calibration is enabled and
the countdown is at zero, reload the countdown with the interval and recompute
the bias from the polynomial at the clamped filtered temperature (the redundant
nested enable check of the C code is kept); finally the countdown is
decremented unconditionally, with `uint8_t` wrap-around (`c - 1` is
`(c + 255) % 256`). -/
def tempBiasStep {β : Type} (alpha : ℚ) (enabled : Bool) (interval : ℕ) (mx mn : ℚ)
    (poly : ℚ → β) (t : ℚ) (s : TempBiasState β) : TempBiasState β :=
  let temp1 := filteredNext alpha t s.temperature
  if enabled && (s.count == 0) then
    { temperature := some temp1
      bias := if enabled then poly (boundf temp1 mx mn) else s.bias
      count := (interval + 255) % 256 }
  else
    { temperature := some temp1
      bias := s.bias
      count := (s.count + 255) % 256 }

/-- The accel temperature-bias polynomial: `coeff * t` per axis. -/
def accelPoly (cal : AccelGyroCal) (t : ℚ) : V3Q :=
  ⟨cal.accel_temp_coeff.x * t, cal.accel_temp_coeff.y * t, cal.accel_temp_coeff.z * t⟩

/-- The gyro temperature-bias polynomial: `(coeff + coeff2 * t) * t` per axis. -/
def gyroPoly (cal : AccelGyroCal) (t : ℚ) : V3Q :=
  ⟨(cal.gyro_temp_coeff.x + cal.gyro_temp_coeff2.x * t) * t,
   (cal.gyro_temp_coeff.y + cal.gyro_temp_coeff2.y * t) * t,
   (cal.gyro_temp_coeff.z + cal.gyro_temp_coeff2.z * t) * t⟩

/-- The baro temperature-bias polynomial: `a + ((d * t + c) * t + b) * t`. -/
def baroPoly (bc : BaroCorrection) (t : ℚ) : ℚ :=
  bc.a + ((bc.d * t + bc.c) * t + bc.b) * t

/-- Function `updateAccelTempBias`.  The constant `temp_alpha_gyro_accel` involves `pi`
(through the low-pass cutoff), so the filter coefficient is a parameter of the
model; no claim depends on its numeric value. -/
def updateAccelTempBias (alpha : ℚ) (cal : AccelGyroCal) (enabled : Bool) (t : ℚ)
    (s : TempBiasState V3Q) : TempBiasState V3Q :=
  tempBiasStep alpha enabled TEMP_CALIB_INTERVAL cal.extent_max cal.extent_min
    (accelPoly cal) t s

/-- Function `updateGyroTempBias`. -/
def updateGyroTempBias (alpha : ℚ) (cal : AccelGyroCal) (enabled : Bool) (t : ℚ)
    (s : TempBiasState V3Q) : TempBiasState V3Q :=
  tempBiasStep alpha enabled TEMP_CALIB_INTERVAL cal.extent_max cal.extent_min
    (gyroPoly cal) t s

/-- Function `updateBaroTempBias`; `bmx`/`bmn` are the baro correction extent. -/
def updateBaroTempBias (alpha : ℚ) (bc : BaroCorrection) (bmx bmn : ℚ) (enabled : Bool)
    (t : ℚ) (s : TempBiasState ℚ) : TempBiasState ℚ :=
  tempBiasStep alpha enabled BARO_TEMP_CALIB_INTERVAL bmx bmn (baroPoly bc) t s

/-- Iterated generic temperature-bias updates: the state after `n` calls, call
`k` feeding raw temperature `temps k`. -/
def tempBiasRun {β : Type} (alpha : ℚ) (enabled : Bool) (interval : ℕ) (mx mn : ℚ)
    (poly : ℚ → β) (temps : ℕ → ℚ) (s0 : TempBiasState β) : ℕ → TempBiasState β
  | 0 => s0
  | n + 1 => tempBiasStep alpha enabled interval mx mn poly (temps n)
      (tempBiasRun alpha enabled interval mx mn poly temps s0 n)

/-- Iterated `updateAccelTempBias` calls. -/
def updateAccelTempBiasRun (alpha : ℚ) (cal : AccelGyroCal) (enabled : Bool)
    (temps : ℕ → ℚ) (s0 : TempBiasState V3Q) : ℕ → TempBiasState V3Q
  | 0 => s0
  | n + 1 => updateAccelTempBias alpha cal enabled (temps n)
      (updateAccelTempBiasRun alpha cal enabled temps s0 n)

/-- Iterated `updateGyroTempBias` calls. -/
def updateGyroTempBiasRun (alpha : ℚ) (cal : AccelGyroCal) (enabled : Bool)
    (temps : ℕ → ℚ) (s0 : TempBiasState V3Q) : ℕ → TempBiasState V3Q
  | 0 => s0
  | n + 1 => updateGyroTempBias alpha cal enabled (temps n)
      (updateGyroTempBiasRun alpha cal enabled temps s0 n)

/-- Iterated `updateBaroTempBias` calls. -/
def updateBaroTempBiasRun (alpha : ℚ) (bc : BaroCorrection) (bmx bmn : ℚ) (enabled : Bool)
    (temps : ℕ → ℚ) (s0 : TempBiasState ℚ) : ℕ → TempBiasState ℚ
  | 0 => s0
  | n + 1 => updateBaroTempBias alpha bc bmx bmn enabled (temps n)
      (updateBaroTempBiasRun alpha bc bmx bmn enabled temps s0 n)

/-- A 3x3 rotation matrix (`R`, row major). -/
structure Mat3 where
  r00 : ℚ
  r01 : ℚ
  r02 : ℚ
  r10 : ℚ
  r11 : ℚ
  r12 : ℚ
  r20 : ℚ
  r21 : ℚ
  r22 : ℚ
  deriving DecidableEq

/-- Modelled from the spec: `rot_mult` lives in the coordinate-conversion
library, which is not among the sources; per the spec, `apply(matrix, vector)`
is a standard matrix-vector product. -/
def rot_mult (m : Mat3) (v : V3Q) : V3Q :=
  ⟨m.r00 * v.x + m.r01 * v.y + m.r02 * v.z,
   m.r10 * v.x + m.r11 * v.y + m.r12 * v.z,
   m.r20 * v.x + m.r21 * v.y + m.r22 * v.z⟩

/-- The record published by `handleAccel` (`AccelSensorData`). -/
structure AccelSensorData where
  x : ℚ
  y : ℚ
  z : ℚ
  temperature : ℚ
  deriving DecidableEq

/-- The record published by `handleGyro` (`GyroSensorData`). -/
structure GyroSensorData where
  x : ℚ
  y : ℚ
  z : ℚ
  temperature : ℚ
  deriving DecidableEq

/-- The record published by `handleBaro` (`BaroSensorData`).  The altitude
field is a fixed real-valued function of the published pressure,
`44330 * (1 - (pressure / standard_atmosphere)^(1/5.255))`, irrational for
general rational pressure; the record keeps the exact inputs {temperature,
pressure} that determine it, and `altitudeIsNaN` below models its NaN-ness. -/
structure BaroSensorData where
  temperature : ℚ
  pressure : ℚ
  deriving DecidableEq

/-- Function `handleAccel`: update the accel temperature bias, subtract the constant
bias, apply the per-axis scale, subtract the temperature bias, rotate by `R`,
and publish {x, y, z, temperature}. -/
def handleAccel (alpha : ℚ) (cal : AccelGyroCal) (enabled : Bool) (R : Mat3)
    (samples : V3Q) (temperature : ℚ) (s : TempBiasState V3Q) :
    AccelSensorData × TempBiasState V3Q :=
  let s1 := updateAccelTempBias alpha cal enabled temperature s
  let accels_out : V3Q :=
    ⟨(samples.x - cal.accel_bias.x) * cal.accel_scale.x - s1.bias.x,
     (samples.y - cal.accel_bias.y) * cal.accel_scale.y - s1.bias.y,
     (samples.z - cal.accel_bias.z) * cal.accel_scale.z - s1.bias.z⟩
  let r := rot_mult R accels_out
  (⟨r.x, r.y, r.z, temperature⟩, s1)

/-- Function `handleGyro`: update the gyro temperature bias, apply the per-axis scale,
subtract the constant bias, subtract the temperature bias, rotate by `R`, and
publish {x, y, z, temperature}. -/
def handleGyro (alpha : ℚ) (cal : AccelGyroCal) (enabled : Bool) (R : Mat3)
    (samples : V3Q) (temperature : ℚ) (s : TempBiasState V3Q) :
    GyroSensorData × TempBiasState V3Q :=
  let s1 := updateGyroTempBias alpha cal enabled temperature s
  let gyros_out : V3Q :=
    ⟨samples.x * cal.gyro_scale.x - cal.gyro_bias.x - s1.bias.x,
     samples.y * cal.gyro_scale.y - cal.gyro_bias.y - s1.bias.y,
     samples.z * cal.gyro_scale.z - cal.gyro_bias.z - s1.bias.z⟩
  let r := rot_mult R gyros_out
  (⟨r.x, r.y, r.z, temperature⟩, s1)

/-- Constant `PIOS_CONST_MKS_STD_ATMOSPHERE_F` (101325 Pa); the constants header is not
among the sources, the spec names it `standard_atmosphere`. -/
def PIOS_CONST_MKS_STD_ATMOSPHERE_F : ℚ := 101325

/-- Whether `44330 * (1 - powf(sample / std_atmosphere, 1/5.255))` is NaN.  By
IEEE-754 / C99 `powf` semantics with the fixed positive non-integer exponent
`1/5.255`: `powf(x, 1/5.255)` is NaN exactly for negative finite `x` (domain
error), is `+0` at `x = +0`, and is a finite positive number for finite
`x > 0`; the surrounding affine expression maps NaN to NaN and numbers to
numbers.  Hence the computed altitude is NaN iff the pressure argument is
negative. -/
def altitudeIsNaN (sample : ℚ) : Bool :=
  decide (sample / PIOS_CONST_MKS_STD_ATMOSPHERE_F < 0)

/-- Function `handleBaro`: update the baro temperature bias, subtract it from the raw
pressure, and publish {altitude, temperature, pressure} only when the computed
altitude is a number (`!isnan(altitude)`); otherwise nothing is published. -/
def handleBaro (alpha : ℚ) (bc : BaroCorrection) (bmx bmn : ℚ) (enabled : Bool)
    (sample temperature : ℚ) (s : TempBiasState ℚ) :
    Option BaroSensorData × TempBiasState ℚ :=
  let s1 := updateBaroTempBias alpha bc bmx bmn enabled temperature s
  let sample1 := sample - s1.bias
  if altitudeIsNaN sample1 then (none, s1)
  else (some ⟨temperature, sample1⟩, s1)

/-- A dispatched handler invocation of `processSamples3d`, with the float
samples and mean temperature it receives. -/
inductive HandlerCall
  | mag (samples : V3Q) (temperature : ℚ)
  | auxmag (samples : V3Q)
  | accel (samples : V3Q) (temperature : ℚ)
  | gyro (samples : V3Q) (temperature : ℚ)
  deriving DecidableEq

/-- Function `processSamples3d`: compute the per-cycle means from the accumulated sums
(`accum * (1/count * scale)`, temperature `sum * (1/count) * 0.01`) and
dispatch to the handlers by sensor type; the combined gyro+accel instance uses
the second accumulator and scale for its gyro part. -/
def processSamples3d (ctx : FetchContext) (stype : SensorType) (scale0 scale1 : ℚ) :
    List HandlerCall :=
  let inv_count : ℚ := 1 / (ctx.count : ℚ)
  let temperature : ℚ := (ctx.temperature : ℚ) * inv_count * (1 / 100)
  let first : List HandlerCall :=
    if stype.hasAccelFlag || stype == SensorType.mag || stype == SensorType.auxmag then
      let t := inv_count * scale0
      let samples : V3Q :=
        ⟨(ctx.accum0.x : ℚ) * t, (ctx.accum0.y : ℚ) * t, (ctx.accum0.z : ℚ) * t⟩
      match stype with
      | SensorType.mag => [HandlerCall.mag samples temperature]
      | SensorType.auxmag => [HandlerCall.auxmag samples]
      | _ => [HandlerCall.accel samples temperature]
    else []
  let second : List HandlerCall :=
    if stype.hasGyroFlag then
      let index1 := stype == SensorType.gyroAccel
      let a := if index1 then ctx.accum1 else ctx.accum0
      let t := inv_count * (if index1 then scale1 else scale0)
      [HandlerCall.gyro ⟨(a.x : ℚ) * t, (a.y : ℚ) * t, (a.z : ℚ) * t⟩ temperature]
    else []
  first ++ second

/-- The mean promised by the spec for one axis of a 3-axis channel: the
accumulated sum divided by the count and multiplied by the per-axis scale. -/
def meanSpec (sum : ℤ) (count : ℕ) (scale : ℚ) : ℚ :=
  (sum : ℚ) / (count : ℚ) * scale

/-- The spec's mean temperature: `(sum / count) * 0.01`. -/
def meanTempSpec (tsum : ℤ) (count : ℕ) : ℚ :=
  (tsum : ℚ) / (count : ℚ) * (1 / 100)

/-- Specification-side rendering of `processSamples3d`, with every mean written
directly as `sum / count * scale` per the spec's words. -/
def processSamples3dSpec (ctx : FetchContext) (stype : SensorType) (scale0 scale1 : ℚ) :
    List HandlerCall :=
  let first : List HandlerCall :=
    if stype.hasAccelFlag || stype == SensorType.mag || stype == SensorType.auxmag then
      let samples : V3Q :=
        ⟨meanSpec ctx.accum0.x ctx.count scale0,
         meanSpec ctx.accum0.y ctx.count scale0,
         meanSpec ctx.accum0.z ctx.count scale0⟩
      match stype with
      | SensorType.mag => [HandlerCall.mag samples (meanTempSpec ctx.temperature ctx.count)]
      | SensorType.auxmag => [HandlerCall.auxmag samples]
      | _ => [HandlerCall.accel samples (meanTempSpec ctx.temperature ctx.count)]
    else []
  let second : List HandlerCall :=
    if stype.hasGyroFlag then
      let index1 := stype == SensorType.gyroAccel
      let a := if index1 then ctx.accum1 else ctx.accum0
      let sc := if index1 then scale1 else scale0
      [HandlerCall.gyro
        ⟨meanSpec a.x ctx.count sc, meanSpec a.y ctx.count sc, meanSpec a.z ctx.count sc⟩
        (meanTempSpec ctx.temperature ctx.count)]
    else []
  first ++ second

/-- One sensor instance together with the raw data its driver yields in the
current cycle: for a queue-fed instance the samples drained from its queue
within the wait budget (the empty list is a stall), for a poll-fed instance the
fetched sample when `PIOS_SENSORS_Poll` reports data. -/
structure SensorInput where
  stype : SensorType
  isPolled : Bool
  queued : List RawSample
  polled : Option RawSample
  deriving DecidableEq

/-- Observable actions of one scheduler cycle of `SensorsTask`. -/
inductive Event
  | alarmSet (sev : Severity)
  | alarmClear
  | extraDelay
  | reset
  | process3d (count : ℕ) (stype : SensorType)
  | process1d (stype : SensorType)
  deriving DecidableEq

/-- Accumulator threaded through the per-sensor traversal of one cycle. -/
structure CycleAcc where
  ctx : FetchContext
  events : List Event
  error : Bool
  resets : ℕ
  deriving DecidableEq

/-- The body of the `LL_FOREACH` over the sensor list inside the main loop of
`SensorsTask`: skip the aux-mag instance unless the decimation counter is zero;
drain a queue-fed instance and either process the accumulated samples
(`processSamples3d`, recorded as a `process3d` event carrying the accumulation
count) or, for a stalled primary instance, request a driver reset, bump the
reset counter and set the error flag; poll a poll-fed instance and run the
fetched sample through the 3-axis or the 1-axis path. -/
def sensorStep (auxSkip : ℕ) (acc : CycleAcc) (s : SensorInput) : CycleAcc :=
  if (s.stype != SensorType.auxmag) || (auxSkip == 0) then
    if !s.isPolled then
      let ctx := s.queued.foldl accumulateSamples acc.ctx
      if ctx.count != 0 then
        { acc with
          ctx := clearContext
          events := acc.events ++ [Event.process3d ctx.count s.stype] }
      else if s.stype.hasAccelFlag then
        { acc with
          ctx := ctx
          events := acc.events ++ [Event.reset]
          error := true
          resets := acc.resets + 1 }
      else
        { acc with ctx := ctx }
    else
      match s.polled with
      | some sample =>
        if s.stype.is3D then
          let ctx := accumulateSamples acc.ctx sample
          { acc with
            ctx := clearContext
            events := acc.events ++ [Event.process3d ctx.count s.stype] }
        else
          { acc with
            ctx := clearContext
            events := acc.events ++ [Event.process1d s.stype] }
      | none => acc
  else acc

/-- Scheduler state carried across cycles of `SensorsTask`: the deferred error
flag, the aux-mag decimation counter and the reset counter. -/
structure CycleState where
  error : Bool
  auxSkip : ℕ
  resets : ℕ
  deriving DecidableEq

/-- The events of one cycle together with the state handed to the next one. -/
structure CycleOutput where
  events : List Event
  state : CycleState
  deriving DecidableEq

/-- Constant `AUX_MAG_SKIP` as a function of `PIOS_SENSOR_RATE` (the rate constant is a
per-board integer set outside the sources):
`(((rate < 76) ? 76 : rate) + 74) / 75`. -/
def AUX_MAG_SKIP (rate : ℕ) : ℕ :=
  ((if rate < 76 then 76 else rate) + 74) / 75

/-- One iteration of the `while (1)` loop of `SensorsTask`: if the previous
cycle flagged an error, wait one extra full period, raise the critical sensors
alarm and clear the flag, otherwise clear the alarm; reset the fetch context;
advance the aux-mag decimation counter; then traverse the sensor list with
`sensorStep`.  The unconditional end-of-iteration `vTaskDelayUntil` is not
recorded as an event; `extraDelay` is the additional full-period wait of the
error path. -/
def sensorsTaskCycle (skipN : ℕ) (st : CycleState) (sensors : List SensorInput) :
    CycleOutput :=
  let preEvents :=
    if st.error then [Event.extraDelay, Event.alarmSet Severity.critical]
    else [Event.alarmClear]
  let auxSkip := (st.auxSkip + 1) % skipN
  let acc := sensors.foldl (sensorStep auxSkip) ⟨clearContext, preEvents, false, st.resets⟩
  ⟨acc.events, ⟨acc.error, auxSkip, acc.resets⟩⟩

/-- The scheduler state after `i` cycles, every cycle fed the same sensor
inputs. -/
def schedStateAt (skipN : ℕ) (sensors : List SensorInput) (st : CycleState) :
    ℕ → CycleState
  | 0 => st
  | i + 1 => (sensorsTaskCycle skipN (schedStateAt skipN sensors st i) sensors).state

/-- The events of the `i`-th cycle (0-indexed) of such a uniform run. -/
def cycleEventsAt (skipN : ℕ) (sensors : List SensorInput) (st : CycleState) (i : ℕ) :
    List Event :=
  (sensorsTaskCycle skipN (schedStateAt skipN sensors st i) sensors).events

/-- A queue-fed primary instance that yielded zero samples in the current
cycle: `is_primary && !sensor_context.count` after the drain. -/
def stalledPrimary (s : SensorInput) : Bool :=
  s.stype.hasAccelFlag && !s.isPolled && s.queued.isEmpty

/-- Predicate: `process3d` events must carry a positive accumulation count. -/
def eventOk : Event → Bool
  | Event.process3d c _ => decide (1 ≤ c)
  | _ => true

/-- Whether an event is a processing call of the aux-mag channel. -/
def isAuxProcessEvent : Event → Bool
  | Event.process3d _ ty => ty == SensorType.auxmag
  | Event.process1d ty => ty == SensorType.auxmag
  | _ => false

/-- Whether an event is a processing call of the given channel type. -/
def eventForType (ty : SensorType) : Event → Bool
  | Event.process3d _ t => t == ty
  | Event.process1d t => t == ty
  | _ => false

/-- Whether a sensor instance has data to deliver in the current cycle. -/
def hasData (s : SensorInput) : Bool :=
  if s.isPolled then s.polled.isSome else !s.queued.isEmpty

/-- The aux-mag channel is processed during cycle `i` of a uniform run. -/
def auxProcessedAt (skipN : ℕ) (sensors : List SensorInput) (st : CycleState)
    (i : ℕ) : Prop :=
  ∃ e ∈ cycleEventsAt skipN sensors st i, isAuxProcessEvent e = true

/-- Outcome of the boot-time self-test phase of `SensorsTask`. -/
inductive BootOutcome
  | haltedForever
  | running
  deriving DecidableEq

/-- The boot phase of `SensorsTask`: clear the sensors alarm, accumulate
`sensors_test &= PIOS_SENSORS_Test(sensor)` over every instance, and on failure
raise the critical alarm once and halt forever (`while (1) vTaskDelay`), never
reaching the main loop. -/
def sensorsTestBoot (tests : List Bool) : List Event × BootOutcome :=
  let ok := tests.foldl (fun a t => a && t) true
  if ok then ([Event.alarmClear], BootOutcome.running)
  else ([Event.alarmClear, Event.alarmSet Severity.critical], BootOutcome.haltedForever)

/-- A concrete calibration record used by closed witness instances. -/
def calW : AccelGyroCal :=
  ⟨⟨0, 0, 0⟩, ⟨1, 1, 1⟩, ⟨1, 1, 1⟩, ⟨0, 0, 0⟩, ⟨1, 1, 1⟩, ⟨1, 1, 1⟩, ⟨0, 0, 0⟩, 0, 100⟩

/-! ## Helper lemmas -/

/-- The filtered temperature after any update is the low-pass value. -/
lemma tempBiasStep_temperature {β : Type} (alpha : ℚ) (enabled : Bool) (interval : ℕ)
    (mx mn : ℚ) (poly : ℚ → β) (t : ℚ) (s : TempBiasState β) :
    (tempBiasStep alpha enabled interval mx mn poly t s).temperature
      = some (filteredNext alpha t s.temperature) := by
  simp only [tempBiasStep]
  split <;> rfl

/-- The `sensors_test &= t` accumulation over a list. -/
lemma foldl_and_eq (l : List Bool) (b : Bool) :
    l.foldl (fun a t => a && t) b = (b && l.all id) := by
  induction l generalizing b with
  | nil => simp
  | cons x xs ih => simp [List.foldl_cons, ih, Bool.and_assoc, List.all_cons]

/-! ## Claim theorems: the numeric pipeline -/

/-- C3: for every accumulation context with `count >= 1`, every handler call
dispatched by `processSamples3d` receives exactly the per-axis means
`sum / count * scale` and the mean temperature `(sum / count) * 0.01`. -/
theorem sensors_c3 (ctx : FetchContext) (stype : SensorType) (scale0 scale1 : ℚ)
    (h : 1 ≤ ctx.count) :
    processSamples3d ctx stype scale0 scale1
      = processSamples3dSpec ctx stype scale0 scale1 := by
  have hc : (ctx.count : ℚ) ≠ 0 := Nat.cast_ne_zero.mpr (by omega)
  cases stype <;>
    simp [processSamples3d, processSamples3dSpec, SensorType.hasAccelFlag,
      SensorType.hasGyroFlag, meanSpec, meanTempSpec, V3Q.mk.injEq] <;>
    repeat' apply And.intro
  all_goals field_simp

/-- C3 witness: a concrete combined gyro+accel context. -/
theorem sensors_c3_witness :
    processSamples3d ⟨⟨3, 6, 9⟩, ⟨4, 8, 12⟩, 300, 3⟩ SensorType.gyroAccel 2 5
      = processSamples3dSpec ⟨⟨3, 6, 9⟩, ⟨4, 8, 12⟩, 300, 3⟩ SensorType.gyroAccel 2 5 :=
  sensors_c3 _ _ _ _ (by decide)

/-- C5: whenever the bias is recomputed (calibration enabled, countdown at
zero), it equals the channel polynomial evaluated at the filtered temperature
clamped into the calibrated extent, with the exact per-channel polynomial
forms; and `boundf` clips below-min to min, keeps in-range values, and clips
above-max to max. -/
theorem sensors_c5 (alphaA alphaG alphaB : ℚ) (cal : AccelGyroCal) (bc : BaroCorrection)
    (bmx bmn : ℚ) (tA tG tB xlo xin xhi mx mn : ℚ)
    (sA sG : TempBiasState V3Q) (sB : TempBiasState ℚ)
    (hA : sA.count = 0) (hG : sG.count = 0) (hB : sB.count = 0) :
    (updateAccelTempBias alphaA cal true tA sA).bias
      = ⟨cal.accel_temp_coeff.x
            * boundf (filteredNext alphaA tA sA.temperature) cal.extent_max cal.extent_min,
         cal.accel_temp_coeff.y
            * boundf (filteredNext alphaA tA sA.temperature) cal.extent_max cal.extent_min,
         cal.accel_temp_coeff.z
            * boundf (filteredNext alphaA tA sA.temperature) cal.extent_max cal.extent_min⟩
  ∧ (updateGyroTempBias alphaG cal true tG sG).bias
      = ⟨(cal.gyro_temp_coeff.x + cal.gyro_temp_coeff2.x
            * boundf (filteredNext alphaG tG sG.temperature) cal.extent_max cal.extent_min)
            * boundf (filteredNext alphaG tG sG.temperature) cal.extent_max cal.extent_min,
         (cal.gyro_temp_coeff.y + cal.gyro_temp_coeff2.y
            * boundf (filteredNext alphaG tG sG.temperature) cal.extent_max cal.extent_min)
            * boundf (filteredNext alphaG tG sG.temperature) cal.extent_max cal.extent_min,
         (cal.gyro_temp_coeff.z + cal.gyro_temp_coeff2.z
            * boundf (filteredNext alphaG tG sG.temperature) cal.extent_max cal.extent_min)
            * boundf (filteredNext alphaG tG sG.temperature) cal.extent_max cal.extent_min⟩
  ∧ (updateBaroTempBias alphaB bc bmx bmn true tB sB).bias
      = bc.a + ((bc.d * boundf (filteredNext alphaB tB sB.temperature) bmx bmn + bc.c)
            * boundf (filteredNext alphaB tB sB.temperature) bmx bmn + bc.b)
            * boundf (filteredNext alphaB tB sB.temperature) bmx bmn
  ∧ (xlo < mn → boundf xlo mx mn = mn)
  ∧ (mn ≤ xin → xin ≤ mx → boundf xin mx mn = xin)
  ∧ (mn ≤ mx → mx < xhi → boundf xhi mx mn = mx) := by
  refine ⟨?_, ?_, ?_, ?_, ?_, ?_⟩
  · simp [updateAccelTempBias, tempBiasStep, hA, accelPoly]
  · simp [updateGyroTempBias, tempBiasStep, hG, gyroPoly]
  · simp [updateBaroTempBias, tempBiasStep, hB, baroPoly]
  · intro h1
    rw [boundf, if_pos h1]
  · intro h1 h2
    rw [boundf, if_neg (not_lt.mpr h1), if_neg (not_lt.mpr h2)]
  · intro h1 h2
    rw [boundf, if_neg (not_lt.mpr (le_trans h1 (le_of_lt h2))), if_pos h2]

/-- C5 witness: the three clamping cases at concrete values. -/
theorem sensors_c5_witness :
    boundf 5 20 10 = 10 ∧ boundf 15 20 10 = 15 ∧ boundf 25 20 10 = 20 :=
  ⟨(sensors_c5 1 1 1 calW ⟨0, 1, 0, 0⟩ 100 0 30 30 30 5 15 25 20 10
      ⟨some 20, ⟨0, 0, 0⟩, 0⟩ ⟨some 20, ⟨0, 0, 0⟩, 0⟩ ⟨some 20, 0, 0⟩
      rfl rfl rfl).2.2.2.1 (by norm_num),
   (sensors_c5 1 1 1 calW ⟨0, 1, 0, 0⟩ 100 0 30 30 30 5 15 25 20 10
      ⟨some 20, ⟨0, 0, 0⟩, 0⟩ ⟨some 20, ⟨0, 0, 0⟩, 0⟩ ⟨some 20, 0, 0⟩
      rfl rfl rfl).2.2.2.2.1 (by norm_num) (by norm_num),
   (sensors_c5 1 1 1 calW ⟨0, 1, 0, 0⟩ 100 0 30 30 30 5 15 25 20 10
      ⟨some 20, ⟨0, 0, 0⟩, 0⟩ ⟨some 20, ⟨0, 0, 0⟩, 0⟩ ⟨some 20, 0, 0⟩
      rfl rfl rfl).2.2.2.2.2 (by norm_num) (by norm_num)⟩

/-- C7: the first update of each temperature tracker seeds the filtered value
to exactly the raw temperature, and every update applies the exponential
low-pass step `filtered + alpha * (raw - filtered)`. -/
theorem sensors_c7 (alphaA alphaG alphaB : ℚ) (cal : AccelGyroCal) (bc : BaroCorrection)
    (bmx bmn : ℚ) (enabled : Bool) (tA tG tB fA fG fB : ℚ)
    (sA1 sA2 sG1 sG2 : TempBiasState V3Q) (sB1 sB2 : TempBiasState ℚ) :
    (sA1.temperature = none →
      (updateAccelTempBias alphaA cal enabled tA sA1).temperature = some tA)
  ∧ (sA2.temperature = some fA →
      (updateAccelTempBias alphaA cal enabled tA sA2).temperature
        = some (fA + alphaA * (tA - fA)))
  ∧ (sG1.temperature = none →
      (updateGyroTempBias alphaG cal enabled tG sG1).temperature = some tG)
  ∧ (sG2.temperature = some fG →
      (updateGyroTempBias alphaG cal enabled tG sG2).temperature
        = some (fG + alphaG * (tG - fG)))
  ∧ (sB1.temperature = none →
      (updateBaroTempBias alphaB bc bmx bmn enabled tB sB1).temperature = some tB)
  ∧ (sB2.temperature = some fB →
      (updateBaroTempBias alphaB bc bmx bmn enabled tB sB2).temperature
        = some (fB + alphaB * (tB - fB))) := by
  refine ⟨fun h => ?_, fun h => ?_, fun h => ?_, fun h => ?_, fun h => ?_, fun h => ?_⟩
  · rw [updateAccelTempBias, tempBiasStep_temperature, h]
    simp only [filteredNext, Option.getD_none, Option.some.injEq]
    ring
  · rw [updateAccelTempBias, tempBiasStep_temperature, h]
    simp only [filteredNext, Option.getD_some, Option.some.injEq]
    ring
  · rw [updateGyroTempBias, tempBiasStep_temperature, h]
    simp only [filteredNext, Option.getD_none, Option.some.injEq]
    ring
  · rw [updateGyroTempBias, tempBiasStep_temperature, h]
    simp only [filteredNext, Option.getD_some, Option.some.injEq]
    ring
  · rw [updateBaroTempBias, tempBiasStep_temperature, h]
    simp only [filteredNext, Option.getD_none, Option.some.injEq]
    ring
  · rw [updateBaroTempBias, tempBiasStep_temperature, h]
    simp only [filteredNext, Option.getD_some, Option.some.injEq]
    ring

/-- C7 witness: concrete first and subsequent filter updates. -/
theorem sensors_c7_witness :
    (updateAccelTempBias 1 ⟨⟨0, 0, 0⟩, ⟨1, 1, 1⟩, ⟨1, 1, 1⟩, ⟨0, 0, 0⟩, ⟨1, 1, 1⟩,
        ⟨1, 1, 1⟩, ⟨0, 0, 0⟩, 0, 100⟩ false 30 ⟨none, ⟨0, 0, 0⟩, 5⟩).temperature = some 30
  ∧ (updateBaroTempBias (1/2) ⟨0, 0, 0, 0⟩ 100 0 false 30 ⟨some 20, 0, 5⟩).temperature
      = some (20 + 1/2 * (30 - 20)) :=
  ⟨(sensors_c7 1 1 (1/2) ⟨⟨0, 0, 0⟩, ⟨1, 1, 1⟩, ⟨1, 1, 1⟩, ⟨0, 0, 0⟩, ⟨1, 1, 1⟩,
        ⟨1, 1, 1⟩, ⟨0, 0, 0⟩, 0, 100⟩ ⟨0, 0, 0, 0⟩ 100 0 false 30 30 30 20 20 20
        ⟨none, ⟨0, 0, 0⟩, 5⟩ ⟨none, ⟨0, 0, 0⟩, 5⟩ ⟨none, ⟨0, 0, 0⟩, 5⟩ ⟨none, ⟨0, 0, 0⟩, 5⟩
        ⟨some 20, 0, 5⟩ ⟨some 20, 0, 5⟩).1 rfl,
   (sensors_c7 1 1 (1/2) ⟨⟨0, 0, 0⟩, ⟨1, 1, 1⟩, ⟨1, 1, 1⟩, ⟨0, 0, 0⟩, ⟨1, 1, 1⟩,
        ⟨1, 1, 1⟩, ⟨0, 0, 0⟩, 0, 100⟩ ⟨0, 0, 0, 0⟩ 100 0 false 30 30 30 20 20 20
        ⟨none, ⟨0, 0, 0⟩, 5⟩ ⟨none, ⟨0, 0, 0⟩, 5⟩ ⟨none, ⟨0, 0, 0⟩, 5⟩ ⟨none, ⟨0, 0, 0⟩, 5⟩
        ⟨some 20, 0, 5⟩ ⟨some 20, 0, 5⟩).2.2.2.2.2 rfl⟩

/-- C10: the published gyro sample is `R` applied to
`mean * scale - constant_bias - temp_bias` (scale before constant bias), while
the published accel sample is `R` applied to
`(mean - constant_bias) * scale - temp_bias` (constant bias before scale). -/
theorem sensors_c10 (alpha : ℚ) (cal : AccelGyroCal) (enabled : Bool) (R : Mat3)
    (gsamples asamples : V3Q) (tG tA : ℚ) (sG sA : TempBiasState V3Q) :
    (handleGyro alpha cal enabled R gsamples tG sG).1
      = (⟨(rot_mult R ⟨gsamples.x * cal.gyro_scale.x - cal.gyro_bias.x
              - (updateGyroTempBias alpha cal enabled tG sG).bias.x,
            gsamples.y * cal.gyro_scale.y - cal.gyro_bias.y
              - (updateGyroTempBias alpha cal enabled tG sG).bias.y,
            gsamples.z * cal.gyro_scale.z - cal.gyro_bias.z
              - (updateGyroTempBias alpha cal enabled tG sG).bias.z⟩).x,
          (rot_mult R ⟨gsamples.x * cal.gyro_scale.x - cal.gyro_bias.x
              - (updateGyroTempBias alpha cal enabled tG sG).bias.x,
            gsamples.y * cal.gyro_scale.y - cal.gyro_bias.y
              - (updateGyroTempBias alpha cal enabled tG sG).bias.y,
            gsamples.z * cal.gyro_scale.z - cal.gyro_bias.z
              - (updateGyroTempBias alpha cal enabled tG sG).bias.z⟩).y,
          (rot_mult R ⟨gsamples.x * cal.gyro_scale.x - cal.gyro_bias.x
              - (updateGyroTempBias alpha cal enabled tG sG).bias.x,
            gsamples.y * cal.gyro_scale.y - cal.gyro_bias.y
              - (updateGyroTempBias alpha cal enabled tG sG).bias.y,
            gsamples.z * cal.gyro_scale.z - cal.gyro_bias.z
              - (updateGyroTempBias alpha cal enabled tG sG).bias.z⟩).z,
          tG⟩ : GyroSensorData)
  ∧ (handleAccel alpha cal enabled R asamples tA sA).1
      = (⟨(rot_mult R ⟨(asamples.x - cal.accel_bias.x) * cal.accel_scale.x
              - (updateAccelTempBias alpha cal enabled tA sA).bias.x,
            (asamples.y - cal.accel_bias.y) * cal.accel_scale.y
              - (updateAccelTempBias alpha cal enabled tA sA).bias.y,
            (asamples.z - cal.accel_bias.z) * cal.accel_scale.z
              - (updateAccelTempBias alpha cal enabled tA sA).bias.z⟩).x,
          (rot_mult R ⟨(asamples.x - cal.accel_bias.x) * cal.accel_scale.x
              - (updateAccelTempBias alpha cal enabled tA sA).bias.x,
            (asamples.y - cal.accel_bias.y) * cal.accel_scale.y
              - (updateAccelTempBias alpha cal enabled tA sA).bias.y,
            (asamples.z - cal.accel_bias.z) * cal.accel_scale.z
              - (updateAccelTempBias alpha cal enabled tA sA).bias.z⟩).y,
          (rot_mult R ⟨(asamples.x - cal.accel_bias.x) * cal.accel_scale.x
              - (updateAccelTempBias alpha cal enabled tA sA).bias.x,
            (asamples.y - cal.accel_bias.y) * cal.accel_scale.y
              - (updateAccelTempBias alpha cal enabled tA sA).bias.y,
            (asamples.z - cal.accel_bias.z) * cal.accel_scale.z
              - (updateAccelTempBias alpha cal enabled tA sA).bias.z⟩).z,
          tA⟩ : AccelSensorData) :=
  ⟨rfl, rfl⟩

/-- C2 (amended): the computed altitude is NaN exactly when the
temperature-bias-corrected pressure is negative; `handleBaro` publishes nothing
exactly when the altitude is NaN, and otherwise publishes the record with the
raw temperature and the corrected pressure. -/
theorem sensors_c2 (alpha : ℚ) (bc : BaroCorrection) (bmx bmn : ℚ) (enabled : Bool)
    (sample temperature : ℚ) (s : TempBiasState ℚ) :
    (altitudeIsNaN (sample - (updateBaroTempBias alpha bc bmx bmn enabled temperature s).bias)
        = true
      ↔ sample - (updateBaroTempBias alpha bc bmx bmn enabled temperature s).bias < 0)
  ∧ ((handleBaro alpha bc bmx bmn enabled sample temperature s).1 = none
      ↔ altitudeIsNaN
          (sample - (updateBaroTempBias alpha bc bmx bmn enabled temperature s).bias) = true)
  ∧ (altitudeIsNaN (sample - (updateBaroTempBias alpha bc bmx bmn enabled temperature s).bias)
        = false
      → (handleBaro alpha bc bmx bmn enabled sample temperature s).1
          = some ⟨temperature,
              sample - (updateBaroTempBias alpha bc bmx bmn enabled temperature s).bias⟩) := by
  refine ⟨?_, ?_, ?_⟩
  · rw [altitudeIsNaN, decide_eq_true_iff, PIOS_CONST_MKS_STD_ATMOSPHERE_F,
      div_lt_iff₀ (by norm_num : (0 : ℚ) < 101325)]
    constructor <;> intro hx <;> linarith
  · cases hn : altitudeIsNaN
        (sample - (updateBaroTempBias alpha bc bmx bmn enabled temperature s).bias) <;>
      simp [handleBaro, hn]
  · intro hn
    simp [handleBaro, hn]

/-- C2 counterexample: at a corrected pressure of exactly 0 the altitude is not
NaN (`powf(0, 1/5.255) = +0`, so the altitude is 44330) and the publish call
does occur, contradicting the claim's "0 or negative" case. -/
theorem sensors_c2_counterexample :
    altitudeIsNaN 0 = false
  ∧ (handleBaro 0 ⟨0, 0, 0, 0⟩ 1 0 false 0 25 ⟨some 25, 0, 5⟩).1 = some ⟨25, 0⟩ := by
  constructor
  · norm_num [altitudeIsNaN, PIOS_CONST_MKS_STD_ATMOSPHERE_F]
  · norm_num [handleBaro, updateBaroTempBias, tempBiasStep, filteredNext, boundf,
      baroPoly, BARO_TEMP_CALIB_INTERVAL, altitudeIsNaN, PIOS_CONST_MKS_STD_ATMOSPHERE_F]

/-- C2 witness: a positive corrected pressure is published unchanged. -/
theorem sensors_c2_witness :
    (handleBaro 0 ⟨0, 0, 0, 0⟩ 1 0 false 5 25 ⟨some 25, 0, 5⟩).1
      = some ⟨25, 5 - (updateBaroTempBias 0 ⟨0, 0, 0, 0⟩ 1 0 false 25 ⟨some 25, 0, 5⟩).bias⟩ :=
  (sensors_c2 0 ⟨0, 0, 0, 0⟩ 1 0 false 5 25 ⟨some 25, 0, 5⟩).2.2 (by
    norm_num [altitudeIsNaN, PIOS_CONST_MKS_STD_ATMOSPHERE_F, updateBaroTempBias,
      tempBiasStep, filteredNext, boundf, baroPoly, BARO_TEMP_CALIB_INTERVAL])

/-- C8: if any instance fails the boot self-test the task raises the critical
sensors alarm exactly once and halts forever, never entering the running loop;
the running loop is entered exactly when every instance passes. -/
theorem sensors_c8 (tests : List Bool) :
    ((false ∈ tests) →
      (sensorsTestBoot tests).2 = BootOutcome.haltedForever
      ∧ (sensorsTestBoot tests).1.count (Event.alarmSet Severity.critical) = 1)
  ∧ ((false ∉ tests) → (sensorsTestBoot tests).2 = BootOutcome.running) := by
  constructor
  · intro hmem
    have hall : tests.all id = false := by
      rcases Bool.eq_false_or_eq_true (tests.all id) with h | h
      · exact absurd (List.all_eq_true.mp h false hmem) (by simp)
      · exact h
    constructor <;> simp [sensorsTestBoot, foldl_and_eq, hall, List.count_cons]
  · intro hmem
    have hall : tests.all id = true := List.all_eq_true.mpr (fun x hx => by
      cases x
      · exact absurd hx hmem
      · rfl)
    simp [sensorsTestBoot, foldl_and_eq, hall]

/-- C8 witness: one failing and one all-passing boot. -/
theorem sensors_c8_witness :
    ((sensorsTestBoot [true, false]).2 = BootOutcome.haltedForever
      ∧ (sensorsTestBoot [true, false]).1.count (Event.alarmSet Severity.critical) = 1)
  ∧ (sensorsTestBoot [true, true]).2 = BootOutcome.running :=
  ⟨(sensors_c8 [true, false]).1 (by decide), (sensors_c8 [true, true]).2 (by decide)⟩

/-- A non-zero countdown means no recompute: the bias is unchanged and the
countdown just decrements (with wrap). -/
lemma tempBiasStep_not_recompute {β : Type} (alpha : ℚ) (enabled : Bool) (interval : ℕ)
    (mx mn : ℚ) (poly : ℚ → β) (t : ℚ) (s : TempBiasState β) (h : s.count ≠ 0) :
    (tempBiasStep alpha enabled interval mx mn poly t s).bias = s.bias
    ∧ (tempBiasStep alpha enabled interval mx mn poly t s).count = (s.count + 255) % 256 := by
  have hb : (s.count == 0) = false := beq_eq_false_iff_ne.mpr h
  simp [tempBiasStep, hb]

/-- A bias change implies the countdown was zero and was reloaded. -/
lemma tempBiasStep_change {β : Type} (alpha : ℚ) (enabled : Bool) (interval : ℕ)
    (mx mn : ℚ) (poly : ℚ → β) (t : ℚ) (s : TempBiasState β)
    (hch : (tempBiasStep alpha enabled interval mx mn poly t s).bias ≠ s.bias) :
    s.count = 0 ∧ (tempBiasStep alpha enabled interval mx mn poly t s).count
      = (interval + 255) % 256 := by
  by_cases hc : (enabled && (s.count == 0)) = true
  · have h1 : s.count = 0 := by
      have h2 := (Bool.and_eq_true enabled (s.count == 0)).mp hc
      simpa using h2.2
    exact ⟨h1, by simp [tempBiasStep, hc]⟩
  · exfalso
    apply hch
    have hc' : (enabled && (s.count == 0)) = false := by
      simpa using hc
    simp [tempBiasStep, hc']

/-- Two bias changes of an enabled run are at least one full recompute interval
apart. -/
lemma tempBiasRun_gap {β : Type} [DecidableEq β] (alpha : ℚ) (interval : ℕ) (mx mn : ℚ)
    (poly : ℚ → β) (temps : ℕ → ℚ) (s0 : TempBiasState β)
    (h2 : 2 ≤ interval) (h256 : interval ≤ 256) (i j : ℕ) (hij : i < j)
    (hci : (tempBiasRun alpha true interval mx mn poly temps s0 (i + 1)).bias
        ≠ (tempBiasRun alpha true interval mx mn poly temps s0 i).bias)
    (hcj : (tempBiasRun alpha true interval mx mn poly temps s0 (j + 1)).bias
        ≠ (tempBiasRun alpha true interval mx mn poly temps s0 j).bias) :
    i + interval ≤ j := by
  set T := tempBiasRun alpha true interval mx mn poly temps s0 with hT
  have hstep : ∀ n, T (n + 1) = tempBiasStep alpha true interval mx mn poly (temps n) (T n) :=
    fun n => rfl
  rw [hstep i] at hci
  rw [hstep j] at hcj
  have hi0 := tempBiasStep_change alpha true interval mx mn poly (temps i) (T i) hci
  have hcount1 : (T (i + 1)).count = interval - 1 := by
    have h3 := hi0.2
    rw [← hstep i] at h3
    omega
  have hd : ∀ d, d ≤ interval - 2 → (T (i + 1 + d)).count = interval - 1 - d := by
    intro d
    induction d with
    | zero => intro _; simpa using hcount1
    | succ k ih =>
      intro hk
      have hprev := ih (by omega)
      have hne : (T (i + 1 + k)).count ≠ 0 := by omega
      have hs2 := (tempBiasStep_not_recompute alpha true interval mx mn poly
          (temps (i + 1 + k)) (T (i + 1 + k)) hne).2
      rw [← hstep (i + 1 + k)] at hs2
      have heq : i + 1 + (k + 1) = i + 1 + k + 1 := by omega
      rw [heq, hs2, hprev]
      omega
  by_contra hlt
  push_neg at hlt
  have hcj0 := (tempBiasStep_change alpha true interval mx mn poly (temps j) (T j) hcj).1
  have hdle : j - i - 1 ≤ interval - 2 := by omega
  have hval := hd (j - i - 1) hdle
  have hdj : i + 1 + (j - i - 1) = j := by omega
  rw [hdj] at hval
  omega

/-- Unfolding: `updateAccelTempBiasRun` is the generic run at the accel parameters. -/
lemma updateAccelTempBiasRun_eq (alpha : ℚ) (cal : AccelGyroCal) (enabled : Bool)
    (temps : ℕ → ℚ) (s0 : TempBiasState V3Q) (n : ℕ) :
    updateAccelTempBiasRun alpha cal enabled temps s0 n
      = tempBiasRun alpha enabled TEMP_CALIB_INTERVAL cal.extent_max cal.extent_min
          (accelPoly cal) temps s0 n := by
  induction n with
  | zero => rfl
  | succ k ih => simp [updateAccelTempBiasRun, tempBiasRun, ih, updateAccelTempBias]

/-- Unfolding: `updateGyroTempBiasRun` is the generic run at the gyro parameters. -/
lemma updateGyroTempBiasRun_eq (alpha : ℚ) (cal : AccelGyroCal) (enabled : Bool)
    (temps : ℕ → ℚ) (s0 : TempBiasState V3Q) (n : ℕ) :
    updateGyroTempBiasRun alpha cal enabled temps s0 n
      = tempBiasRun alpha enabled TEMP_CALIB_INTERVAL cal.extent_max cal.extent_min
          (gyroPoly cal) temps s0 n := by
  induction n with
  | zero => rfl
  | succ k ih => simp [updateGyroTempBiasRun, tempBiasRun, ih, updateGyroTempBias]

/-- Unfolding: `updateBaroTempBiasRun` is the generic run at the baro parameters. -/
lemma updateBaroTempBiasRun_eq (alpha : ℚ) (bc : BaroCorrection) (bmx bmn : ℚ)
    (enabled : Bool) (temps : ℕ → ℚ) (s0 : TempBiasState ℚ) (n : ℕ) :
    updateBaroTempBiasRun alpha bc bmx bmn enabled temps s0 n
      = tempBiasRun alpha enabled BARO_TEMP_CALIB_INTERVAL bmx bmn
          (baroPoly bc) temps s0 n := by
  induction n with
  | zero => rfl
  | succ k ih => simp [updateBaroTempBiasRun, tempBiasRun, ih, updateBaroTempBias]

/-- C6: with calibration enabled the stored bias changes at most once per 30
updates (accel/gyro) or 10 (baro) — any two changes are at least one interval
apart; the countdown is decremented (with `uint8_t` wrap) on every call
regardless of whether calibration is enabled; and with calibration disabled the
bias is never modified. -/
theorem sensors_c6 (alphaA alphaG alphaB : ℚ) (cal : AccelGyroCal) (bc : BaroCorrection)
    (bmx bmn : ℚ) (tempsA tempsG tempsB : ℕ → ℚ)
    (sA0 sG0 : TempBiasState V3Q) (sB0 : TempBiasState ℚ) (i j : ℕ) (hij : i < j) :
    ((updateAccelTempBiasRun alphaA cal true tempsA sA0 (i + 1)).bias
        ≠ (updateAccelTempBiasRun alphaA cal true tempsA sA0 i).bias →
      (updateAccelTempBiasRun alphaA cal true tempsA sA0 (j + 1)).bias
        ≠ (updateAccelTempBiasRun alphaA cal true tempsA sA0 j).bias →
      i + 30 ≤ j)
  ∧ ((updateGyroTempBiasRun alphaG cal true tempsG sG0 (i + 1)).bias
        ≠ (updateGyroTempBiasRun alphaG cal true tempsG sG0 i).bias →
      (updateGyroTempBiasRun alphaG cal true tempsG sG0 (j + 1)).bias
        ≠ (updateGyroTempBiasRun alphaG cal true tempsG sG0 j).bias →
      i + 30 ≤ j)
  ∧ ((updateBaroTempBiasRun alphaB bc bmx bmn true tempsB sB0 (i + 1)).bias
        ≠ (updateBaroTempBiasRun alphaB bc bmx bmn true tempsB sB0 i).bias →
      (updateBaroTempBiasRun alphaB bc bmx bmn true tempsB sB0 (j + 1)).bias
        ≠ (updateBaroTempBiasRun alphaB bc bmx bmn true tempsB sB0 j).bias →
      i + 10 ≤ j)
  ∧ (∀ (enabled : Bool) (t : ℚ) (s : TempBiasState V3Q), s.count ≠ 0 →
      (updateAccelTempBias alphaA cal enabled t s).count = (s.count + 255) % 256)
  ∧ (∀ (t : ℚ) (s : TempBiasState V3Q), s.count = 0 →
      (updateAccelTempBias alphaA cal true t s).count = 29)
  ∧ (∀ (t : ℚ) (s : TempBiasState V3Q),
      (updateAccelTempBias alphaA cal false t s).count = (s.count + 255) % 256
      ∧ (updateAccelTempBias alphaA cal false t s).bias = s.bias)
  ∧ (∀ (t : ℚ) (s : TempBiasState V3Q),
      (updateGyroTempBias alphaG cal false t s).count = (s.count + 255) % 256
      ∧ (updateGyroTempBias alphaG cal false t s).bias = s.bias)
  ∧ (∀ (t : ℚ) (s : TempBiasState ℚ),
      (updateBaroTempBias alphaB bc bmx bmn false t s).count = (s.count + 255) % 256
      ∧ (updateBaroTempBias alphaB bc bmx bmn false t s).bias = s.bias) := by
  refine ⟨?_, ?_, ?_, ?_, ?_, ?_, ?_, ?_⟩
  · intro hci hcj
    rw [updateAccelTempBiasRun_eq, updateAccelTempBiasRun_eq] at hci hcj
    exact tempBiasRun_gap alphaA TEMP_CALIB_INTERVAL cal.extent_max cal.extent_min
      (accelPoly cal) tempsA sA0 (by norm_num [TEMP_CALIB_INTERVAL])
      (by norm_num [TEMP_CALIB_INTERVAL]) i j hij hci hcj
  · intro hci hcj
    rw [updateGyroTempBiasRun_eq, updateGyroTempBiasRun_eq] at hci hcj
    exact tempBiasRun_gap alphaG TEMP_CALIB_INTERVAL cal.extent_max cal.extent_min
      (gyroPoly cal) tempsG sG0 (by norm_num [TEMP_CALIB_INTERVAL])
      (by norm_num [TEMP_CALIB_INTERVAL]) i j hij hci hcj
  · intro hci hcj
    rw [updateBaroTempBiasRun_eq, updateBaroTempBiasRun_eq] at hci hcj
    exact tempBiasRun_gap alphaB BARO_TEMP_CALIB_INTERVAL bmx bmn
      (baroPoly bc) tempsB sB0 (by norm_num [BARO_TEMP_CALIB_INTERVAL])
      (by norm_num [BARO_TEMP_CALIB_INTERVAL]) i j hij hci hcj
  · intro enabled t s hs
    exact (tempBiasStep_not_recompute alphaA enabled TEMP_CALIB_INTERVAL cal.extent_max
      cal.extent_min (accelPoly cal) t s hs).2
  · intro t s hs
    simp [updateAccelTempBias, tempBiasStep, hs, TEMP_CALIB_INTERVAL]
  · intro t s
    constructor <;> simp [updateAccelTempBias, tempBiasStep]
  · intro t s
    constructor <;> simp [updateGyroTempBias, tempBiasStep]
  · intro t s
    constructor <;> simp [updateBaroTempBias, tempBiasStep]

/-- C6 witness: a concrete enabled baro run whose bias changes at calls 0 and
10, exactly one interval apart. -/
theorem sensors_c6_witness : (0 : ℕ) + 10 ≤ 10 :=
  (sensors_c6 1 1 1 calW ⟨0, 1, 0, 0⟩ 100 0 (fun _ => 20) (fun _ => 20)
      (fun n => if n < 10 then 20 else 40) ⟨some 20, ⟨0, 0, 0⟩, 0⟩
      ⟨some 20, ⟨0, 0, 0⟩, 0⟩ ⟨some 20, 0, 0⟩ 0 10 (by norm_num)).2.2.1
    (by norm_num [updateBaroTempBiasRun, updateBaroTempBias, tempBiasStep,
      filteredNext, boundf, baroPoly, BARO_TEMP_CALIB_INTERVAL])
    (by norm_num [updateBaroTempBiasRun, updateBaroTempBias, tempBiasStep,
      filteredNext, boundf, baroPoly, BARO_TEMP_CALIB_INTERVAL])

/-- Draining a queue adds one accumulated sample per queued raw sample. -/
lemma foldl_accumulate_count (l : List RawSample) (ctx : FetchContext) :
    (l.foldl accumulateSamples ctx).count = ctx.count + l.length := by
  induction l generalizing ctx with
  | nil => simp
  | cons x xs ih =>
    rw [List.foldl_cons, ih]
    simp [accumulateSamples]
    omega

/-- Everything one `sensorStep` can do, starting from an empty fetch context:
the new events it appends, the preserved empty-context invariant, the error
flag and reset accounting, the positivity of every recorded processing count,
and when aux-mag (resp. any other channel) gets processed. -/
lemma sensorStep_spec (auxSkip : ℕ) (acc : CycleAcc) (s : SensorInput)
    (h : acc.ctx.count = 0) :
    ∃ new : List Event,
      (sensorStep auxSkip acc s).events = acc.events ++ new
    ∧ (sensorStep auxSkip acc s).ctx.count = 0
    ∧ (sensorStep auxSkip acc s).error = (acc.error || stalledPrimary s)
    ∧ (sensorStep auxSkip acc s).resets = acc.resets + (if stalledPrimary s then 1 else 0)
    ∧ new.count Event.reset = (if stalledPrimary s then 1 else 0)
    ∧ (∀ e ∈ new, eventOk e = true)
    ∧ (auxSkip ≠ 0 → ∀ e ∈ new, isAuxProcessEvent e = false)
    ∧ (auxSkip = 0 → s.stype = SensorType.auxmag → hasData s = true →
        ∃ e ∈ new, isAuxProcessEvent e = true)
    ∧ (s.stype ≠ SensorType.auxmag → hasData s = true →
        ∃ e ∈ new, eventForType s.stype e = true) := by
  obtain ⟨ty, pol, queued, polled⟩ := s
  by_cases hguard : ((ty != SensorType.auxmag) || (auxSkip == 0)) = true
  · cases pol with
    | false =>
      cases queued with
      | nil =>
        by_cases hfl : ty.hasAccelFlag = true
        · have hna : ty ≠ SensorType.auxmag := by
            cases ty <;> simp_all [SensorType.hasAccelFlag]
          refine ⟨[Event.reset], ?_, ?_, ?_, ?_, ?_, ?_, ?_, ?_, ?_⟩ <;>
            simp [sensorStep, hguard, h, hfl, stalledPrimary, eventOk,
              isAuxProcessEvent, eventForType, hasData, hna]
        · refine ⟨[], ?_, ?_, ?_, ?_, ?_, ?_, ?_, ?_, ?_⟩ <;>
            simp [sensorStep, hguard, h, hfl, stalledPrimary, hasData]
      | cons q qs =>
        have hcnt : (List.foldl accumulateSamples (accumulateSamples acc.ctx q) qs).count
            = qs.length + 1 := by
          rw [foldl_accumulate_count]
          simp [accumulateSamples, h]
          omega
        have hne0 : ¬ (List.foldl accumulateSamples (accumulateSamples acc.ctx q) qs).count
            = 0 := by omega
        refine ⟨[Event.process3d (qs.length + 1) ty],
            ?_, ?_, ?_, ?_, ?_, ?_, ?_, ?_, ?_⟩ <;>
          simp [sensorStep, hguard, hne0, hcnt, stalledPrimary, clearContext, eventOk,
            isAuxProcessEvent, eventForType, hasData]
        intro hsk hty
        rw [hty] at hguard
        simp [hsk] at hguard
    | true =>
      cases polled with
      | none =>
        refine ⟨[], ?_, ?_, ?_, ?_, ?_, ?_, ?_, ?_, ?_⟩ <;>
          simp [sensorStep, hguard, h, stalledPrimary, hasData]
      | some sample =>
        by_cases h3 : ty.is3D = true
        · have hcnt : (accumulateSamples acc.ctx sample).count = 1 := by
            simp [accumulateSamples, h]
          refine ⟨[Event.process3d 1 ty],
              ?_, ?_, ?_, ?_, ?_, ?_, ?_, ?_, ?_⟩ <;>
            simp [sensorStep, hguard, h3, stalledPrimary, clearContext, eventOk,
              isAuxProcessEvent, eventForType, hasData, hcnt]
          intro hsk hty
          rw [hty] at hguard
          simp [hsk] at hguard
        · have hna : ty ≠ SensorType.auxmag := by
            cases ty <;> simp_all [SensorType.is3D]
          refine ⟨[Event.process1d ty], ?_, ?_, ?_, ?_, ?_, ?_, ?_, ?_, ?_⟩ <;>
            simp [sensorStep, hguard, h3, stalledPrimary, clearContext, eventOk,
              isAuxProcessEvent, eventForType, hasData, hna]
  · have hga : ty = SensorType.auxmag ∧ auxSkip ≠ 0 := by
      constructor
      · by_contra hne
        apply hguard
        simp [hne]
      · intro h0
        apply hguard
        simp [h0]
    have hguard' : ((ty != SensorType.auxmag) || (auxSkip == 0)) = false := by
      simpa using hguard
    refine ⟨[], ?_, ?_, ?_, ?_, ?_, ?_, ?_, ?_, ?_⟩ <;>
      simp [sensorStep, hguard', stalledPrimary, hga.1, hga.2, SensorType.hasAccelFlag, h]

/-- Lemma `sensorStep_spec` lifted over the whole per-cycle sensor traversal. -/
lemma foldl_sensorStep_spec (auxSkip : ℕ) (sensors : List SensorInput) (acc : CycleAcc)
    (h : acc.ctx.count = 0) :
    ∃ new : List Event,
      (sensors.foldl (sensorStep auxSkip) acc).events = acc.events ++ new
    ∧ (sensors.foldl (sensorStep auxSkip) acc).ctx.count = 0
    ∧ (sensors.foldl (sensorStep auxSkip) acc).error
        = (acc.error || sensors.any stalledPrimary)
    ∧ (sensors.foldl (sensorStep auxSkip) acc).resets
        = acc.resets + sensors.countP stalledPrimary
    ∧ new.count Event.reset = sensors.countP stalledPrimary
    ∧ (∀ e ∈ new, eventOk e = true)
    ∧ (auxSkip ≠ 0 → ∀ e ∈ new, isAuxProcessEvent e = false)
    ∧ (auxSkip = 0 → ∀ s ∈ sensors, s.stype = SensorType.auxmag → hasData s = true →
        ∃ e ∈ new, isAuxProcessEvent e = true)
    ∧ (∀ s ∈ sensors, s.stype ≠ SensorType.auxmag → hasData s = true →
        ∃ e ∈ new, eventForType s.stype e = true) := by
  induction sensors generalizing acc with
  | nil =>
    refine ⟨[], ?_, ?_, ?_, ?_, ?_, ?_, ?_, ?_, ?_⟩ <;> simp [h]
  | cons s rest ih =>
    obtain ⟨n1, he1, hc1, her1, hrs1, hcr1, hok1, hax1, haxp1, hft1⟩ :=
      sensorStep_spec auxSkip acc s h
    obtain ⟨n2, he2, hc2, her2, hrs2, hcr2, hok2, hax2, haxp2, hft2⟩ :=
      ih (sensorStep auxSkip acc s) hc1
    refine ⟨n1 ++ n2, ?_, ?_, ?_, ?_, ?_, ?_, ?_, ?_, ?_⟩
    · rw [List.foldl_cons, he2, he1, List.append_assoc]
    · rw [List.foldl_cons]
      exact hc2
    · rw [List.foldl_cons, her2, her1, List.any_cons, Bool.or_assoc]
    · rw [List.foldl_cons, hrs2, hrs1, List.countP_cons]
      cases hsp : stalledPrimary s <;> (simp [hsp]; try omega)
    · rw [List.count_append, hcr1, hcr2, List.countP_cons]
      cases hsp : stalledPrimary s <;> (simp [hsp]; try omega)
    · intro e he
      rcases List.mem_append.mp he with h' | h'
      · exact hok1 e h'
      · exact hok2 e h'
    · intro hsk e he
      rcases List.mem_append.mp he with h' | h'
      · exact hax1 hsk e h'
      · exact hax2 hsk e h'
    · intro hsk s' hs' hty hdata
      rcases List.mem_cons.mp hs' with h' | h'
      · obtain ⟨e, he, hp⟩ := haxp1 hsk (h' ▸ hty) (h' ▸ hdata)
        exact ⟨e, List.mem_append.mpr (Or.inl he), hp⟩
      · obtain ⟨e, he, hp⟩ := haxp2 hsk s' h' hty hdata
        exact ⟨e, List.mem_append.mpr (Or.inr he), hp⟩
    · intro s' hs' hty hdata
      rcases List.mem_cons.mp hs' with h' | h'
      · obtain ⟨e, he, hp⟩ := hft1 (h' ▸ hty) (h' ▸ hdata)
        obtain ⟨e2, he2, hp2⟩ : ∃ e2 ∈ n1, eventForType s'.stype e2 = true := by
          rw [h']
          exact ⟨e, he, hp⟩
        exact ⟨e2, List.mem_append.mpr (Or.inl he2), hp2⟩
      · obtain ⟨e, he, hp⟩ := hft2 s' h' hty hdata
        exact ⟨e, List.mem_append.mpr (Or.inr he), hp⟩

/-- The events, error flag and reset counter of one full cycle, split into the
prelude (error handling) part and the per-sensor part. -/
lemma sensorsTaskCycle_spec (skipN : ℕ) (st : CycleState) (sensors : List SensorInput) :
    ∃ new : List Event,
      (sensorsTaskCycle skipN st sensors).events
        = (if st.error then [Event.extraDelay, Event.alarmSet Severity.critical]
            else [Event.alarmClear]) ++ new
    ∧ new.count Event.reset = sensors.countP stalledPrimary
    ∧ (sensorsTaskCycle skipN st sensors).state.error = sensors.any stalledPrimary
    ∧ (sensorsTaskCycle skipN st sensors).state.resets
        = st.resets + sensors.countP stalledPrimary
    ∧ (∀ e ∈ new, eventOk e = true)
    ∧ ((st.auxSkip + 1) % skipN ≠ 0 → ∀ e ∈ new, isAuxProcessEvent e = false)
    ∧ ((st.auxSkip + 1) % skipN = 0 →
        ∀ s ∈ sensors, s.stype = SensorType.auxmag → hasData s = true →
        ∃ e ∈ new, isAuxProcessEvent e = true)
    ∧ (∀ s ∈ sensors, s.stype ≠ SensorType.auxmag → hasData s = true →
        ∃ e ∈ new, eventForType s.stype e = true) := by
  obtain ⟨new, he, _, her, hrs, hcr, hok, hax, haxp, hft⟩ :=
    foldl_sensorStep_spec ((st.auxSkip + 1) % skipN) sensors
      ⟨clearContext,
        if st.error then [Event.extraDelay, Event.alarmSet Severity.critical]
        else [Event.alarmClear], false, st.resets⟩ rfl
  exact ⟨new, he, hcr, by simpa using her, hrs, hok, hax, haxp, hft⟩

/-- C4: `processSamples3d` is never invoked on an empty accumulation context —
every `process3d` event of any scheduler cycle carries a positive count, so the
division by the count is always over a positive number. -/
theorem sensors_c4 (skipN : ℕ) (st : CycleState) (sensors : List SensorInput)
    (c : ℕ) (ty : SensorType)
    (hmem : Event.process3d c ty ∈ (sensorsTaskCycle skipN st sensors).events) :
    1 ≤ c := by
  obtain ⟨new, he, _, _, _, hok, _, _, _⟩ := sensorsTaskCycle_spec skipN st sensors
  rw [he] at hmem
  rcases List.mem_append.mp hmem with h' | h'
  · by_cases herr : st.error <;> simp [herr] at h'
  · have hx := hok _ h'
    simpa [eventOk] using hx

/-- C4 witness: a concrete cycle whose `process3d` event carries count 3. -/
theorem sensors_c4_witness : 1 ≤ 3 :=
  sensors_c4 7 ⟨false, 0, 0⟩
    [⟨SensorType.gyroAccel, false,
      [⟨2, ⟨1, 1, 1⟩, ⟨2, 2, 2⟩, 100⟩, ⟨2, ⟨1, 1, 1⟩, ⟨2, 2, 2⟩, 100⟩,
       ⟨2, ⟨1, 1, 1⟩, ⟨2, 2, 2⟩, 100⟩], none⟩] 3 SensorType.gyroAccel (by decide)

/-- C1 (amended): a cycle whose unique queue-fed primary instance yields zero
samples requests exactly one driver reset, increments the reset counter and
sets the error flag; the immediately following cycle first waits one extra full
period and raises the critical-severity (not warning-severity) sensors alarm
and clears the error flag; the cycle after that resumes normal cadence with the
alarm cleared. -/
theorem sensors_c1 (skipN : ℕ) (st0 : CycleState)
    (sensors1 sensors2 sensors3 : List SensorInput)
    (h0 : st0.error = false)
    (h1 : sensors1.countP stalledPrimary = 1)
    (h2 : sensors2.countP stalledPrimary = 0) :
    (sensorsTaskCycle skipN st0 sensors1).events.count Event.reset = 1
  ∧ (sensorsTaskCycle skipN st0 sensors1).state.resets = st0.resets + 1
  ∧ (sensorsTaskCycle skipN st0 sensors1).state.error = true
  ∧ (∃ rest, (sensorsTaskCycle skipN (sensorsTaskCycle skipN st0 sensors1).state
        sensors2).events
      = Event.extraDelay :: Event.alarmSet Severity.critical :: rest)
  ∧ (sensorsTaskCycle skipN (sensorsTaskCycle skipN st0 sensors1).state sensors2).state.error
      = false
  ∧ (∃ rest, (sensorsTaskCycle skipN (sensorsTaskCycle skipN (sensorsTaskCycle skipN st0
        sensors1).state sensors2).state sensors3).events
      = Event.alarmClear :: rest) := by
  obtain ⟨n1, he1, hcr1, her1, hrs1, _, _, _, _⟩ := sensorsTaskCycle_spec skipN st0 sensors1
  have hany1 : sensors1.any stalledPrimary = true := by
    rcases List.countP_pos_iff.mp (by omega : 0 < sensors1.countP stalledPrimary)
      with ⟨x, hx, hpx⟩
    exact List.any_eq_true.mpr ⟨x, hx, hpx⟩
  have hany2 : sensors2.any stalledPrimary = false := by
    rcases Bool.eq_false_or_eq_true (sensors2.any stalledPrimary) with hh | hh
    · obtain ⟨x, hx, hpx⟩ := List.any_eq_true.mp hh
      have hz := List.countP_eq_zero.mp h2 x hx
      exact absurd hpx hz
    · exact hh
  obtain ⟨n2, he2, hcr2, her2, hrs2, _, _, _, _⟩ :=
    sensorsTaskCycle_spec skipN (sensorsTaskCycle skipN st0 sensors1).state sensors2
  obtain ⟨n3, he3, hcr3, her3, hrs3, _, _, _, _⟩ :=
    sensorsTaskCycle_spec skipN
      (sensorsTaskCycle skipN (sensorsTaskCycle skipN st0 sensors1).state sensors2).state
      sensors3
  have herr1 : (sensorsTaskCycle skipN st0 sensors1).state.error = true := by
    rw [her1, hany1]
  have herr2 : (sensorsTaskCycle skipN (sensorsTaskCycle skipN st0 sensors1).state
      sensors2).state.error = false := by
    rw [her2, hany2]
  refine ⟨?_, ?_, herr1, ?_, herr2, ?_⟩
  · rw [he1, List.count_append, h0]
    simp [hcr1, h1]
  · rw [hrs1, h1]
  · refine ⟨n2, ?_⟩
    rw [he2, herr1]
    rfl
  · refine ⟨n3, ?_⟩
    rw [he3, herr2]
    rfl

/-- C1 counterexample: after a concrete primary stall, the recovery cycle
raises the critical-severity sensors alarm, not a warning-severity one as the
claim states. -/
theorem sensors_c1_counterexample :
    Event.alarmSet Severity.warning ∉
      (sensorsTaskCycle 7 (sensorsTaskCycle 7 ⟨false, 0, 0⟩
          [⟨SensorType.gyroAccel, false, [], none⟩]).state
        [⟨SensorType.gyroAccel, false, [⟨2, ⟨1, 1, 1⟩, ⟨2, 2, 2⟩, 100⟩], none⟩]).events
  ∧ Event.alarmSet Severity.critical ∈
      (sensorsTaskCycle 7 (sensorsTaskCycle 7 ⟨false, 0, 0⟩
          [⟨SensorType.gyroAccel, false, [], none⟩]).state
        [⟨SensorType.gyroAccel, false, [⟨2, ⟨1, 1, 1⟩, ⟨2, 2, 2⟩, 100⟩], none⟩]).events := by
  decide

/-- C1 witness: the stall cycle of a concrete run requests exactly one reset. -/
theorem sensors_c1_witness :
    (sensorsTaskCycle 7 ⟨false, 0, 0⟩
      [⟨SensorType.gyroAccel, false, [], none⟩]).events.count Event.reset = 1 :=
  (sensors_c1 7 ⟨false, 0, 0⟩ [⟨SensorType.gyroAccel, false, [], none⟩]
    [⟨SensorType.gyroAccel, false, [⟨2, ⟨1, 1, 1⟩, ⟨2, 2, 2⟩, 100⟩], none⟩]
    [⟨SensorType.gyroAccel, false, [⟨2, ⟨1, 1, 1⟩, ⟨2, 2, 2⟩, 100⟩], none⟩]
    rfl (by decide) (by decide)).1

/-- Constant `AUX_MAG_SKIP` computes the real ceiling `ceil(max(rate, 76) / 75)`. -/
lemma AUX_MAG_SKIP_eq_ceil (rate : ℕ) :
    (AUX_MAG_SKIP rate : ℤ) = ⌈(max (rate : ℚ) 76) / 75⌉ := by
  have hif : AUX_MAG_SKIP rate = (max rate 76 + 74) / 75 := by
    rw [AUX_MAG_SKIP]
    rcases lt_or_ge rate 76 with hr | hr
    · rw [if_pos hr, max_eq_right (le_of_lt hr)]
    · rw [if_neg (not_lt.mpr hr), max_eq_left hr]
  have hm : (max (rate : ℚ) 76) = ((max rate 76 : ℕ) : ℚ) := by
    push_cast
    rfl
  rw [hif, hm]
  set m := max rate 76 with hmdef
  set k := (m + 74) / 75 with hkdef
  rw [eq_comm, Int.ceil_eq_iff]
  refine ⟨?_, ?_⟩
  · rw [lt_div_iff₀ (by norm_num : (0 : ℚ) < 75)]
    have h1 : 75 * k ≤ m + 74 := by omega
    have h1q : (75 * k : ℚ) ≤ (m : ℚ) + 74 := by exact_mod_cast h1
    push_cast
    linarith
  · rw [div_le_iff₀ (by norm_num : (0 : ℚ) < 75)]
    have h2 : m ≤ 75 * k := by omega
    have h2q : (m : ℚ) ≤ 75 * k := by exact_mod_cast h2
    push_cast
    linarith

/-- The aux-mag decimation factor is at least 2. -/
lemma AUX_MAG_SKIP_ge_two (rate : ℕ) : 2 ≤ AUX_MAG_SKIP rate := by
  rw [AUX_MAG_SKIP]
  split <;> omega

/-- The decimation counter advances by one (mod `skipN`) every cycle. -/
lemma sensorsTaskCycle_auxSkip (skipN : ℕ) (st : CycleState)
    (sensors : List SensorInput) :
    (sensorsTaskCycle skipN st sensors).state.auxSkip = (st.auxSkip + 1) % skipN := rfl

/-- Starting from a zero counter, the counter before cycle `i` is `i % skipN`. -/
lemma schedStateAt_auxSkip (skipN : ℕ) (sensors : List SensorInput) (st : CycleState)
    (h0 : st.auxSkip = 0) (h2 : 2 ≤ skipN) (i : ℕ) :
    (schedStateAt skipN sensors st i).auxSkip = i % skipN := by
  induction i with
  | zero =>
    rw [schedStateAt, h0]
    simp
  | succ n ih =>
    rw [schedStateAt, sensorsTaskCycle_auxSkip, ih]
    conv_rhs => rw [Nat.add_mod, Nat.mod_eq_of_lt (by omega : 1 < skipN)]

/-- The aux-mag channel is processed in cycle `i` exactly when the advanced
counter `(i + 1) % skipN` is zero (an aux-mag instance with data present). -/
lemma auxProcessedAt_iff (skipN : ℕ) (sensors : List SensorInput) (st : CycleState)
    (h0 : st.auxSkip = 0) (h2 : 2 ≤ skipN)
    (hAux : ∃ s ∈ sensors, s.stype = SensorType.auxmag ∧ hasData s = true) (i : ℕ) :
    auxProcessedAt skipN sensors st i ↔ (i + 1) % skipN = 0 := by
  obtain ⟨new, he, _, _, _, _, hax, haxp, _⟩ :=
    sensorsTaskCycle_spec skipN (schedStateAt skipN sensors st i) sensors
  have hsk : ((schedStateAt skipN sensors st i).auxSkip + 1) % skipN
      = (i + 1) % skipN := by
    rw [schedStateAt_auxSkip skipN sensors st h0 h2 i]
    conv_rhs => rw [Nat.add_mod, Nat.mod_eq_of_lt (by omega : 1 < skipN)]
  rw [hsk] at hax haxp
  unfold auxProcessedAt cycleEventsAt
  rw [he]
  constructor
  · rintro ⟨e, hee, hpe⟩
    by_contra hne
    rcases List.mem_append.mp hee with h' | h'
    · by_cases herr : (schedStateAt skipN sensors st i).error
      · simp [herr] at h'
        rcases h' with h' | h' <;> rw [h'] at hpe <;> simp [isAuxProcessEvent] at hpe
      · simp [herr] at h'
        rw [h'] at hpe
        simp [isAuxProcessEvent] at hpe
    · have hf := hax hne e h'
      simp [hpe] at hf
  · intro hz
    obtain ⟨s, hs, hty, hdata⟩ := hAux
    obtain ⟨e, he2, hp⟩ := haxp hz s hs hty hdata
    exact ⟨e, List.mem_append.mpr (Or.inr he2), hp⟩

/-- Every window of `N` consecutive cycle indices contains exactly one index
whose successor is divisible by `N`. -/
lemma window_unique_mod (N t : ℕ) (h2 : 2 ≤ N) :
    ∃ i, t ≤ i ∧ i < t + N ∧ (i + 1) % N = 0
      ∧ ∀ j, t ≤ j → j < t + N → (j + 1) % N = 0 → j = i := by
  have hr : t % N < N := Nat.mod_lt _ (by omega)
  have hdm : N * (t / N) + t % N = t := Nat.div_add_mod t N
  have hmul : N * (t / N + 1) = N * (t / N) + N := by ring
  have heq : t + (N - 1 - t % N) + 1 = N * (t / N + 1) := by
    rw [hmul]
    omega
  refine ⟨t + (N - 1 - t % N), by omega, by omega, ?_, ?_⟩
  · rw [heq]
    exact Nat.mul_mod_right N (t / N + 1)
  · intro j hj1 hj2 hj3
    have hd1 : N ∣ j + 1 := Nat.dvd_of_mod_eq_zero hj3
    have hd2 : N ∣ t + (N - 1 - t % N) + 1 := by
      rw [heq]
      exact Dvd.intro _ rfl
    rcases le_total (j + 1) (t + (N - 1 - t % N) + 1) with hle | hle
    · have hdd := Nat.dvd_sub' hd2 hd1
      have hz := Nat.eq_zero_of_dvd_of_lt hdd
      by_cases hzz : t + (N - 1 - t % N) + 1 - (j + 1) = 0
      · omega
      · have := hz (by omega)
        omega
    · have hdd := Nat.dvd_sub' hd1 hd2
      have hz := Nat.eq_zero_of_dvd_of_lt hdd
      by_cases hzz : j + 1 - (t + (N - 1 - t % N) + 1) = 0
      · omega
      · have := hz (by omega)
        omega

/-- C9: the aux-mag decimation factor is `ceil(max(rate, 76) / 75)` (7 at
500 Hz); in a uniform run that starts with a zero decimation counter and always
offers aux-mag data, every window of `AUX_MAG_SKIP rate` consecutive cycles
processes the aux-mag channel in exactly one cycle, while every other channel
with data is processed in every cycle. -/
theorem sensors_c9 (rate : ℕ) (sensors : List SensorInput) (st : CycleState)
    (h0 : st.auxSkip = 0)
    (hAux : ∃ s ∈ sensors, s.stype = SensorType.auxmag ∧ hasData s = true) :
    ((AUX_MAG_SKIP rate : ℤ) = ⌈(max (rate : ℚ) 76) / 75⌉)
  ∧ AUX_MAG_SKIP 500 = 7
  ∧ (∀ t : ℕ, ∃ i : ℕ, t ≤ i ∧ i < t + AUX_MAG_SKIP rate
      ∧ auxProcessedAt (AUX_MAG_SKIP rate) sensors st i
      ∧ ∀ j : ℕ, t ≤ j → j < t + AUX_MAG_SKIP rate →
          auxProcessedAt (AUX_MAG_SKIP rate) sensors st j → j = i)
  ∧ (∀ i : ℕ, ∀ s ∈ sensors, s.stype ≠ SensorType.auxmag → hasData s = true →
      ∃ e ∈ cycleEventsAt (AUX_MAG_SKIP rate) sensors st i,
        eventForType s.stype e = true) := by
  have h2 : 2 ≤ AUX_MAG_SKIP rate := AUX_MAG_SKIP_ge_two rate
  refine ⟨AUX_MAG_SKIP_eq_ceil rate, by decide, ?_, ?_⟩
  · intro t
    obtain ⟨i, hi1, hi2, hi3, hi4⟩ := window_unique_mod (AUX_MAG_SKIP rate) t h2
    refine ⟨i, hi1, hi2, ?_, ?_⟩
    · exact (auxProcessedAt_iff (AUX_MAG_SKIP rate) sensors st h0 h2 hAux i).mpr hi3
    · intro j hj1 hj2 hjp
      exact hi4 j hj1 hj2
        ((auxProcessedAt_iff (AUX_MAG_SKIP rate) sensors st h0 h2 hAux j).mp hjp)
  · intro i s hs hty hdata
    obtain ⟨new, he, _, _, _, _, _, _, hft⟩ :=
      sensorsTaskCycle_spec (AUX_MAG_SKIP rate)
        (schedStateAt (AUX_MAG_SKIP rate) sensors st i) sensors
    obtain ⟨e, he2, hp⟩ := hft s hs hty hdata
    refine ⟨e, ?_, hp⟩
    unfold cycleEventsAt
    rw [he]
    exact List.mem_append.mpr (Or.inr he2)

/-- C9 witness: the decimation factor at the 500 Hz main rate is 7. -/
theorem sensors_c9_witness : AUX_MAG_SKIP 500 = 7 :=
  (sensors_c9 500 [⟨SensorType.auxmag, false, [⟨1, ⟨1, 2, 3⟩, ⟨0, 0, 0⟩, 50⟩], none⟩]
    ⟨false, 0, 0⟩ rfl (by decide)).2.1

end LibrePilotSensors
